import Mathlib

/-!
Shallow embedding of `rating_tracker.py` (US Chess Rating Tracker).

The program is a linear pipeline: `fetch_member_sections` performs one HTTP
GET and converts every request failure to an absent result;
`calculate_rating_change` formats the signed rating delta;
`format_date` reformats ISO-8601 date strings; `display_sections` builds the
summary (current rating, section count) and one table row per section.

Python values are modelled as follows: strings are Lean `String` (a list of
unicode code points, matching Python character indexing), optional JSON
fields are `Option`, integers are `Int`.  Heterogeneous table cells (the
rows mix strings and ints) are the `Cell` sum type.
-/

/-- Python slicing `s[:n]`: the first `n` characters of the string. -/
def strTake (n : Nat) (s : String) : String := ⟨s.data.take n⟩

/-- Numeric value of a decimal digit character. -/
def dv (c : Char) : Nat := c.toNat - 48

/-- Value of a run of decimal digit characters, most significant first. -/
def natOfDigits (cs : List Char) : Nat := cs.foldl (fun a c => a * 10 + dv c) 0

/-- Python `date_string.replace('Z', '+00:00')`: `str.replace` with a
single-character pattern replaces every occurrence of that character. -/
def pyReplaceZ (s : String) : String :=
  ⟨s.data.flatMap (fun c => if c = 'Z' then ['+', '0', '0', ':', '0', '0'] else [c])⟩

/-- The date produced by a successful `datetime.fromisoformat` parse
(only the fields that `strftime("%Y-%m-%d")` reads). -/
structure PyDate where
  year : Nat
  month : Nat
  day : Nat
deriving DecidableEq

/-- Gregorian leap-year test used by `datetime`'s day-of-month validation. -/
def _is_leap (y : Nat) : Bool := y % 4 = 0 && (y % 100 != 0 || y % 400 = 0)

/-- Number of days in a month, as validated by the `datetime` constructor. -/
def _days_in_month (y m : Nat) : Nat :=
  if m = 2 then (if _is_leap y then 29 else 28)
  else if m = 4 || m = 6 || m = 9 || m = 11 then 30
  else 31

/-- Two decimal digit characters read as a number (a time component `HH`,
`MM`, `SS` or a date pair). -/
def two_digits (c1 c2 : Char) : Option Nat :=
  if c1.isDigit && c2.isDigit then some (dv c1 * 10 + dv c2) else none

/-- Modelled from CPython `datetime._parse_isoformat_date`: the first ten
characters must be `YYYY-MM-DD` with every component a pair (resp. quadruple)
of decimal digits.  Range validation is done later by the constructor. -/
def _parse_isoformat_date (cs : List Char) : Option PyDate :=
  match cs with
  | [y1, y2, y3, y4, h1, m1, m2, h2, d1, d2] =>
    if y1.isDigit && y2.isDigit && y3.isDigit && y4.isDigit && h1 = '-' &&
       m1.isDigit && m2.isDigit && h2 = '-' && d1.isDigit && d2.isDigit then
      some ⟨dv y1 * 1000 + dv y2 * 100 + dv y3 * 10 + dv y4,
            dv m1 * 10 + dv m2, dv d1 * 10 + dv d2⟩
    else none
  | _ => none

/-- Modelled from CPython `datetime._parse_hh_mm_ss_ff`: accepts
`HH`, `HH:MM`, `HH:MM:SS`, or `HH:MM:SS.fff` / `HH:MM:SS.ffffff`
(fraction of exactly three or six digits); returns
hours, minutes, seconds and microseconds. -/
def _parse_hh_mm_ss_ff (cs : List Char) : Option (Nat × Nat × Nat × Nat) :=
  match cs with
  | [h1, h2] =>
    (two_digits h1 h2).map (fun hh => (hh, 0, 0, 0))
  | [h1, h2, c1, m1, m2] =>
    if c1 = ':' then
      match two_digits h1 h2, two_digits m1 m2 with
      | some hh, some mm => some (hh, mm, 0, 0)
      | _, _ => none
    else none
  | [h1, h2, c1, m1, m2, c2, s1, s2] =>
    if c1 = ':' && c2 = ':' then
      match two_digits h1 h2, two_digits m1 m2, two_digits s1 s2 with
      | some hh, some mm, some ss => some (hh, mm, ss, 0)
      | _, _, _ => none
    else none
  | h1 :: h2 :: c1 :: m1 :: m2 :: c2 :: s1 :: s2 :: c3 :: frac =>
    if c1 = ':' && c2 = ':' && c3 = '.' &&
       (frac.length = 3 || frac.length = 6) && frac.all Char.isDigit then
      match two_digits h1 h2, two_digits m1 m2, two_digits s1 s2 with
      | some hh, some mm, some ss =>
        some (hh, mm, ss, if frac.length = 3 then natOfDigits frac * 1000 else natOfDigits frac)
      | _, _, _ => none
    else none
  | _ => none

/-- Modelled from CPython `datetime._parse_isoformat_time` plus the range
checks of the `datetime`/`timezone` constructors: the time string is split at
the first `-` (else the first `+`) into a local time and a timezone offset;
the local components must satisfy hour ≤ 23, minute ≤ 59, second ≤ 59; the
offset string (when present) must be 5, 8 or 15 characters and denote an
offset strictly below 24 hours.  Returns `true` when the whole time string is
valid. -/
def _parse_isoformat_time (cs : List Char) : Bool :=
  if cs.length < 2 then false
  else
    let tzIdx : Option Nat :=
      match cs.findIdx? (fun c => c = '-') with
      | some i => some i
      | none => cs.findIdx? (fun c => c = '+')
    match tzIdx with
    | none =>
      match _parse_hh_mm_ss_ff cs with
      | some (hh, mm, ss, _) => hh ≤ 23 && mm ≤ 59 && ss ≤ 59
      | none => false
    | some i =>
      let timestr := cs.take i
      let tzstr := cs.drop (i + 1)
      match _parse_hh_mm_ss_ff timestr with
      | none => false
      | some (hh, mm, ss, _) =>
        if hh ≤ 23 && mm ≤ 59 && ss ≤ 59 then
          if tzstr.length = 5 || tzstr.length = 8 || tzstr.length = 15 then
            match _parse_hh_mm_ss_ff tzstr with
            | some (th, tm, ts, tf) =>
              ((th * 60 + tm) * 60 + ts) * 1000000 + tf < 24 * 3600 * 1000000
            | none => false
          else false
        else false

/-- Modelled from CPython `datetime.fromisoformat` (Python < 3.11, the
grammar documented as `YYYY-MM-DD[*HH[:MM[:SS[.fff[fff]]]][+HH:MM[:SS[.ffffff]]]]`):
the first ten characters are the date, character ten (any character) is the
separator, the rest is the time string; the date components are validated by
the `datetime` constructor (year ≥ 1, month 1–12, day within the month). -/
def datetime_fromisoformat (cs : List Char) : Option PyDate :=
  match _parse_isoformat_date (cs.take 10) with
  | none => none
  | some d =>
    let dateOk := 1 ≤ d.year && 1 ≤ d.month && d.month ≤ 12 &&
                  1 ≤ d.day && d.day ≤ _days_in_month d.year d.month
    match cs.drop 10 with
    | [] => if dateOk then some d else none
    | _sep :: tstr =>
      if tstr.isEmpty then (if dateOk then some d else none)
      else if dateOk && _parse_isoformat_time tstr then some d else none

/-- Character for the last decimal digit of a number. -/
def digitChar (n : Nat) : Char := Char.ofNat (48 + n % 10)

/-- Two-digit zero-padded decimal rendering (`strftime` `%m`, `%d`). -/
def pad2 (n : Nat) : List Char := [digitChar (n / 10), digitChar n]

/-- Four-digit zero-padded decimal rendering (`strftime` `%Y` for the
parseable year range 1–9999). -/
def pad4 (n : Nat) : List Char :=
  [digitChar (n / 1000), digitChar (n / 100), digitChar (n / 10), digitChar n]

/-- Python `date.strftime("%Y-%m-%d")`. -/
def strftime_Ymd (d : PyDate) : String :=
  ⟨pad4 d.year ++ '-' :: (pad2 d.month ++ '-' :: pad2 d.day)⟩

/-- Embedding of `format_date` (rating_tracker.py lines 31–39): empty string
(Python falsy) gives `"N/A"`; otherwise `Z` is replaced by `+00:00`, the
result is parsed with `datetime.fromisoformat` and reformatted as
`YYYY-MM-DD`; any parse failure returns the original string unchanged. -/
def format_date (date_string : String) : String :=
  if date_string = "" then "N/A"
  else
    match datetime_fromisoformat (pyReplaceZ date_string).data with
    | some date => strftime_Ymd date
    | none => date_string

/-- Embedding of `calculate_rating_change` (rating_tracker.py lines 42–53). -/
def calculate_rating_change (rating_before rating_after : Option Int) : String :=
  match rating_before, rating_after with
  | some b, some a =>
    let change := a - b
    if change > 0 then "+" ++ toString change
    else if change < 0 then toString change
    else "0"
  | _, _ => "Pending"

/-- A rating record of a section: `{preRating, postRating}`, both optional. -/
structure RatingRecord where
  preRating : Option Int
  postRating : Option Int
deriving DecidableEq

/-- The `event` object of a section: `{name, startDate, endDate}`. -/
structure EventInfo where
  name : Option String
  startDate : Option String
  endDate : Option String
deriving DecidableEq

/-- One element of the `items` array. -/
structure SectionItem where
  ratingRecords : Option (List RatingRecord)
  ratingSystem : Option String
  sectionName : Option String
  event : Option EventInfo
deriving DecidableEq

/-- The fetched JSON document; `items = none` models a document without an
`items` key.  A Python-falsy document (`None`) is the outer `Option`. -/
structure ApiData where
  items : Option (List SectionItem)
deriving DecidableEq

/-- A table cell: the rows built by `display_sections` mix strings and
integers. -/
inductive Cell where
  | str (s : String)
  | int (n : Int)
deriving DecidableEq

/-- Observable output of `display_sections`: the no-data message, the
no-sections message, or the summary (current rating, total sections)
together with the table rows. -/
inductive DisplayOutput where
  | noData
  | noSections
  | table (current_rating : Cell) (total_sections : Nat) (rows : List (List Cell))
deriving DecidableEq

/-- Python truthiness filter for an optional integer: `None` and `0` are
falsy (used by the `or`-chains in the source). -/
def truthyInt : Option Int → Option Int
  | some v => if v = 0 then none else some v
  | none => none

/-- Embedding of the summary computation of `display_sections`
(rating_tracker.py lines 75–80): `rating_records[0].get('postRating') or
rating_records[0].get('preRating') or 'N/A'`, where `latest` is the first
section. -/
def current_rating_of (latest : SectionItem) : Cell :=
  match latest.ratingRecords.getD [] with
  | [] => Cell.str "N/A"
  | r0 :: _ =>
    match truthyInt r0.postRating with
    | some v => Cell.int v
    | none =>
      match truthyInt r0.preRating with
      | some v => Cell.int v
      | none => Cell.str "N/A"

/-- Embedding of the loop body of `display_sections`
(rating_tracker.py lines 102–129): the table row built for one section. -/
def section_row (s : SectionItem) : List Cell :=
  let rating_records := s.ratingRecords.getD []
  let rating_type := s.ratingSystem.getD "R"
  let rating_before := match rating_records with | [] => none | r0 :: _ => r0.preRating
  let rating_after := match rating_records with | [] => none | r0 :: _ => r0.postRating
  let change := calculate_rating_change rating_before rating_after
  let ev := s.event.getD ⟨none, none, none⟩
  let event_name := ev.name.getD "N/A"
  let event_date := match ev.endDate with
    | some d => if d = "" then ev.startDate.getD "" else d
    | none => ev.startDate.getD ""
  [Cell.str (format_date event_date),
   Cell.str (strTake 30 event_name),
   Cell.str (strTake 20 (s.sectionName.getD "N/A")),
   Cell.str rating_type,
   (match rating_before with | some v => Cell.int v | none => Cell.str "N/A"),
   (match rating_after with | some v => Cell.int v | none => Cell.str "Pending"),
   Cell.str change]

/-- Embedding of `display_sections` (rating_tracker.py lines 56–136):
a falsy document or one without `items` prints "No data available"; an empty
`items` list prints "No tournament sections found"; otherwise the summary and
one row per section are produced. -/
def display_sections (data : Option ApiData) : DisplayOutput :=
  match data with
  | none => DisplayOutput.noData
  | some d =>
    match d.items with
    | none => DisplayOutput.noData
    | some sections =>
      match sections with
      | [] => DisplayOutput.noSections
      | latest :: rest =>
        DisplayOutput.table (current_rating_of latest) (latest :: rest).length
          ((latest :: rest).map section_row)

/-- Outcome of the one `requests.get` call, abstracting the network: a
transport-layer failure (a raised `RequestException` such as
`ConnectionError`), or a response with an HTTP status code and a body that
either decodes as JSON (`some`) or does not (`none`, in which case
`response.json()` raises a `JSONDecodeError`, itself a `RequestException`). -/
inductive HttpOutcome (α : Type) where
  | transportError
  | response (status : Nat) (body : Option α)
deriving DecidableEq

/-- Modelled from `requests.Response.raise_for_status`: raises `HTTPError`
exactly for client-error (4xx) and server-error (5xx) status codes. -/
def raise_for_status_errs (status : Nat) : Bool := 400 ≤ status && status < 600

/-- Embedding of `fetch_member_sections` (rating_tracker.py lines 14–28):
the network effect is abstracted as the `outcome` argument; every
`RequestException` (transport failure, `raise_for_status`, JSON decoding)
is caught and converted to `none`. -/
def fetch_member_sections {α : Type} (outcome : HttpOutcome α) : Option α :=
  match outcome with
  | HttpOutcome.transportError => none
  | HttpOutcome.response status body =>
    if raise_for_status_errs status then none else body


/-- Specification-side rendering of a signed integer, as described by the
spec: positive values prefixed with `+`, negative values with their natural
sign, zero as the literal `"0"`. -/
def signedIntString (n : Int) : String :=
  if n > 0 then "+" ++ toString n
  else if n < 0 then toString n
  else "0"

/-- Specification-side shape predicate: a ten-character string of the form
`YYYY-MM-DD` (four digits, dash, two digits, dash, two digits). -/
def isYMD (s : String) : Bool :=
  match s.data with
  | [a, b, c, d, h1, e, f, h2, g, h] =>
    a.isDigit && b.isDigit && c.isDigit && d.isDigit && h1 = '-' &&
    e.isDigit && f.isDigit && h2 = '-' && g.isDigit && h.isDigit
  | _ => false

/-- Data of a concatenation of strings. -/
theorem append_data (s t : String) : (s ++ t).data = s.data ++ t.data := rfl

/-- A string that starts with a plus sign is not the string `"Pending"`. -/
theorem plus_ne_pending (s : String) : "+" ++ s ≠ "Pending" := by
  intro h
  have h2 := congrArg String.data h
  rw [append_data] at h2
  simp at h2

/-- The decimal rendering of a negative integer is not the string
`"Pending"` (it starts with a minus sign). -/
theorem negSucc_ne_pending (k : Nat) : toString (Int.negSucc k) ≠ "Pending" := by
  intro h
  have h2 : toString (Int.negSucc k) = "-" ++ toString (k + 1) := rfl
  rw [h2] at h
  have h3 := congrArg String.data h
  rw [append_data] at h3
  simp at h3

/-- C1 (counterexample): with before = 1500 and after = 1520 the code
returns `"+20"`, the sign-prefixed representation of after − before; the
claimed value, the sign-prefixed representation of before − after, would be
`"-20"`. -/
theorem calculate_rating_change_claim_false :
    calculate_rating_change (some 1500) (some 1520) = "+20" ∧
    signedIntString ((1500 : Int) - 1520) = "-20" ∧
    ("+20" : String) ≠ "-20" := by
  refine ⟨rfl, rfl, by decide⟩

/-- C1 (amended): `calculate_rating_change before after` returns `"Pending"`
iff one of the two ratings is absent; when both are present it returns the
sign-prefixed decimal representation of after − before (positive prefixed
with `+`, negative with its natural sign, zero as `"0"`), and equal ratings
give `"0"`. -/
theorem calculate_rating_change_spec :
    (∀ b a : Option Int, calculate_rating_change b a = "Pending" ↔ (b = none ∨ a = none)) ∧
    (∀ b a : Int, calculate_rating_change (some b) (some a) = signedIntString (a - b)) ∧
    (∀ x : Int, calculate_rating_change (some x) (some x) = "0") := by
  refine ⟨?_, fun b a => rfl, ?_⟩
  · intro b a
    cases b with
    | none => simp [calculate_rating_change]
    | some b =>
      cases a with
      | none => simp [calculate_rating_change]
      | some a =>
        simp only [calculate_rating_change]
        constructor
        · intro h
          by_cases hpos : a - b > 0
          · rw [if_pos hpos] at h
            exact absurd h (plus_ne_pending _)
          · rw [if_neg hpos] at h
            by_cases hneg : a - b < 0
            · rw [if_pos hneg] at h
              cases hab : a - b with
              | ofNat n =>
                rw [hab] at hneg
                exact absurd hneg (not_lt.mpr (Int.ofNat_nonneg n))
              | negSucc k =>
                rw [hab] at h
                exact absurd h (negSucc_ne_pending _)
            · rw [if_neg hneg] at h
              exact absurd h (by decide)
        · rintro (h | h) <;> simp at h
  · intro x
    simp [calculate_rating_change]

/-- C1 (witness): the amended statement evaluated at before = 1500,
after = 1520. -/
theorem calculate_rating_change_spec_witness :
    calculate_rating_change (some 1500) (some 1520) = signedIntString ((1520 : Int) - 1500) :=
  calculate_rating_change_spec.2.1 1500 1520

/-- Characters produced by `digitChar` are decimal digits. -/
theorem isDigit_digitChar (n : Nat) : (digitChar n).isDigit = true := by
  have hfin : ∀ m : Fin 10, (Char.ofNat (48 + m.val)).isDigit = true := by decide
  have h : n % 10 < 10 := Nat.mod_lt _ (by norm_num)
  exact hfin ⟨n % 10, h⟩

/-- The `strftime("%Y-%m-%d")` rendering always has the `YYYY-MM-DD` shape. -/
theorem isYMD_strftime (d : PyDate) : isYMD (strftime_Ymd d) = true := by
  simp [isYMD, strftime_Ymd, pad4, pad2, isDigit_digitChar]

/-- The empty string does not parse as an ISO date. -/
theorem fromisoformat_empty : datetime_fromisoformat (pyReplaceZ "").data = none := rfl

/-- C2 (counterexample): the empty string is malformed (it does not parse),
yet `format_date` does not return it unchanged — it returns `"N/A"`. -/
theorem format_date_claim_false :
    datetime_fromisoformat (pyReplaceZ "").data = none ∧ format_date "" ≠ "" :=
  ⟨rfl, by decide⟩

/-- C2 (amended): a well-formed ISO-8601 input (one accepted by
`datetime.fromisoformat` after the `Z` replacement) maps to the
`YYYY-MM-DD` rendering of the parsed date (which always has the
`YYYY-MM-DD` shape); a malformed nonempty input maps to itself
unchanged; the empty string maps to `"N/A"`. -/
theorem format_date_spec :
    (∀ s : String, ∀ d : PyDate, datetime_fromisoformat (pyReplaceZ s).data = some d →
       format_date s = strftime_Ymd d) ∧
    (∀ d : PyDate, isYMD (strftime_Ymd d) = true) ∧
    (∀ s : String, s ≠ "" → datetime_fromisoformat (pyReplaceZ s).data = none →
       format_date s = s) ∧
    format_date "" = "N/A" := by
  refine ⟨?_, isYMD_strftime, ?_, rfl⟩
  · intro s d hd
    by_cases h0 : s = ""
    · subst h0
      rw [fromisoformat_empty] at hd
      exact absurd hd (by simp)
    · simp [format_date, h0, hd]
  · intro s h0 hn
    simp [format_date, h0, hn]

/-- C2 (witness): the amended statement evaluated at a well-formed input and
at a malformed nonempty input. -/
theorem format_date_spec_witness :
    format_date "2024-03-10T00:00:00Z" = strftime_Ymd ⟨2024, 3, 10⟩ ∧
    format_date "garbage" = "garbage" :=
  ⟨format_date_spec.1 "2024-03-10T00:00:00Z" ⟨2024, 3, 10⟩ (by decide),
   format_date_spec.2.2.1 "garbage" (by decide) (by decide)⟩

/-- C10: `format_date` is total — every input yields one of the three benign
outcomes (`"N/A"`, the input itself after a caught parse failure, or the
reformatted parsed date) — and the empty string yields `"N/A"`, not the
input itself. -/
theorem format_date_total :
    format_date "" = "N/A" ∧
    ∀ s : String, format_date s = "N/A" ∨ format_date s = s ∨
      ∃ d : PyDate, datetime_fromisoformat (pyReplaceZ s).data = some d ∧
        format_date s = strftime_Ymd d := by
  refine ⟨rfl, ?_⟩
  intro s
  by_cases h0 : s = ""
  · subst h0
    exact Or.inl rfl
  · cases hp : datetime_fromisoformat (pyReplaceZ s).data with
    | none =>
      right; left
      simp [format_date, h0, hp]
    | some d =>
      right; right
      exact ⟨d, rfl, by simp [format_date, h0, hp]⟩

/-- C10 (witness): the trichotomy evaluated at a concrete input. -/
theorem format_date_total_witness :
    format_date "not-a-date" = "N/A" ∨ format_date "not-a-date" = "not-a-date" ∨
      ∃ d : PyDate, datetime_fromisoformat (pyReplaceZ "not-a-date").data = some d ∧
        format_date "not-a-date" = strftime_Ymd d :=
  format_date_total.2 "not-a-date"

/-- C3: the spec's single-section example produces exactly the claimed row,
current rating 1520 and section count 1. -/
theorem display_sections_example :
    display_sections (some ⟨some [⟨some [⟨some 1500, some 1520⟩], some "R", some "Open",
        some ⟨some "Spring Open", none, some "2024-03-10T00:00:00Z"⟩⟩]⟩) =
      DisplayOutput.table (Cell.int 1520) 1
        [[Cell.str "2024-03-10", Cell.str "Spring Open", Cell.str "Open", Cell.str "R",
          Cell.int 1500, Cell.int 1520, Cell.str "+20"]] := by
  rfl

/-- C4: a falsy/absent document or one without an `items` key yields the
"No data available" outcome, and an empty `items` list yields the
"No tournament sections found" outcome — in both cases no table and no
summary are produced (the outcome carries neither). -/
theorem display_sections_empty_spec :
    display_sections none = DisplayOutput.noData ∧
    (∀ d : ApiData, d.items = none → display_sections (some d) = DisplayOutput.noData) ∧
    (∀ d : ApiData, d.items = some [] → display_sections (some d) = DisplayOutput.noSections) := by
  refine ⟨rfl, ?_, ?_⟩ <;> intro d h <;> simp [display_sections, h]

/-- C4 (witness): the empty-result outcomes at concrete documents. -/
theorem display_sections_empty_spec_witness :
    display_sections (some ⟨none⟩) = DisplayOutput.noData ∧
    display_sections (some ⟨some []⟩) = DisplayOutput.noSections :=
  ⟨display_sections_empty_spec.2.1 ⟨none⟩ rfl,
   display_sections_empty_spec.2.2 ⟨some []⟩ rfl⟩

/-- C5 (counterexample): a 301 response is not a 2xx status, yet
`fetch_member_sections` returns the decoded body rather than `none`, because
`raise_for_status` only raises for 4xx/5xx statuses. -/
theorem fetch_member_sections_claim_false :
    ¬ (200 ≤ 301 ∧ 301 < 300) ∧
    fetch_member_sections (HttpOutcome.response 301 (some (0 : Nat))) = some 0 :=
  ⟨by decide, rfl⟩

/-- C5 (amended): `fetch_member_sections` returns `none` exactly on a
transport-layer failure, a 4xx/5xx response (the statuses for which
`raise_for_status` raises), or an undecodable body; a response whose status
is outside 400–599 with a decodable body returns the decoded JSON body; no
exception propagates (the embedding is a total function). -/
theorem fetch_member_sections_spec :
    (∀ α : Type, ∀ o : HttpOutcome α, fetch_member_sections o = none ↔
       (o = HttpOutcome.transportError ∨
        ∃ st b, o = HttpOutcome.response st b ∧
          (raise_for_status_errs st = true ∨ b = none))) ∧
    (∀ st : Nat, ∀ α : Type, ∀ j : α, raise_for_status_errs st = false →
       fetch_member_sections (HttpOutcome.response st (some j)) = some j) := by
  constructor
  · intro α o
    cases o with
    | transportError => simp [fetch_member_sections]
    | response st b =>
      simp only [fetch_member_sections]
      constructor
      · intro h
        rcases Bool.eq_false_or_eq_true (raise_for_status_errs st) with hs | hs
        · exact Or.inr ⟨st, b, rfl, Or.inl hs⟩
        · simp [hs] at h
          exact Or.inr ⟨st, b, rfl, Or.inr h⟩
      · rintro (h | ⟨st2, b2, heq, h2⟩)
        · exact absurd h (by simp)
        · cases heq
          rcases h2 with h2 | h2 <;> simp [h2]
  · intro st α j h
    simp [fetch_member_sections, h]

/-- C5 (witness): a successful 200 response returns its decoded body. -/
theorem fetch_member_sections_spec_witness :
    fetch_member_sections (HttpOutcome.response 200 (some (5 : Nat))) = some 5 :=
  fetch_member_sections_spec.2 200 Nat 5 (by decide)

/-- C6 (counterexample): with first rating record `{preRating: 1200,
postRating: 0}` the post-rating is present, yet the summary's current rating
is 1200, not 0 — the Python `or`-chain treats a 0 rating as missing. -/
theorem current_rating_claim_false :
    current_rating_of ⟨some [⟨some 1200, some 0⟩], none, none, none⟩ = Cell.int 1200 ∧
    Cell.int 1200 ≠ Cell.int 0 :=
  ⟨rfl, by decide⟩

/-- C6 (amended): the summary shown for a nonempty section list is the first
section's current rating, computed from its first rating record as: the
post-rating when present and nonzero; else the pre-rating when present and
nonzero; else `'N/A'` (Python truthiness also treats a present rating of 0
as missing); `'N/A'` when the record list is absent or empty. -/
theorem current_rating_spec :
    (∀ latest : SectionItem, ∀ more : List SectionItem,
       display_sections (some ⟨some (latest :: more)⟩) =
         DisplayOutput.table (current_rating_of latest) (latest :: more).length
           ((latest :: more).map section_row)) ∧
    (∀ latest : SectionItem,
       (latest.ratingRecords = none ∨ latest.ratingRecords = some []) →
       current_rating_of latest = Cell.str "N/A") ∧
    (∀ latest : SectionItem, ∀ r0 : RatingRecord, ∀ rs : List RatingRecord,
       latest.ratingRecords = some (r0 :: rs) →
       ((∀ p : Int, r0.postRating = some p → p ≠ 0 →
           current_rating_of latest = Cell.int p) ∧
        ((r0.postRating = none ∨ r0.postRating = some 0) →
          ∀ q : Int, r0.preRating = some q → q ≠ 0 →
            current_rating_of latest = Cell.int q) ∧
        ((r0.postRating = none ∨ r0.postRating = some 0) →
         (r0.preRating = none ∨ r0.preRating = some 0) →
         current_rating_of latest = Cell.str "N/A"))) := by
  refine ⟨fun latest more => rfl, ?_, ?_⟩
  · intro latest h
    rcases h with h | h <;> simp [current_rating_of, h]
  · intro latest r0 rs hrr
    refine ⟨?_, ?_, ?_⟩
    · intro p hp hp0
      simp [current_rating_of, hrr, truthyInt, hp, hp0]
    · intro hpost q hq hq0
      rcases hpost with hpost | hpost <;>
        simp [current_rating_of, hrr, truthyInt, hpost, hq, hq0]
    · intro hpost hpre
      rcases hpost with hpost | hpost <;> rcases hpre with hpre | hpre <;>
        simp [current_rating_of, hrr, truthyInt, hpost, hpre]

/-- C6 (witness): the amended statement evaluated at a record with a nonzero
post-rating. -/
theorem current_rating_spec_witness :
    current_rating_of ⟨some [⟨some 1200, some 1520⟩], none, none, none⟩ = Cell.int 1520 :=
  (current_rating_spec.2.2 ⟨some [⟨some 1200, some 1520⟩], none, none, none⟩
    ⟨some 1200, some 1520⟩ [] rfl).1 1520 rfl (by decide)

/-- Length of a Python slice `s[:n]`. -/
theorem strTake_length (n : Nat) (s : String) : (strTake n s).length = min n s.length := by
  show (s.data.take n).length = min n s.length
  exact List.length_take n s.data

/-- A Python slice `s[:n]` leaves a string of length at most `n` unchanged. -/
theorem strTake_of_le (n : Nat) (s : String) (h : s.length ≤ n) : strTake n s = s := by
  cases s with
  | mk data =>
    simp only [strTake]
    congr 1
    exact List.take_of_length_le h

/-- C7: in the displayed row the tournament cell is the event name cut to its
first 30 characters and the section cell is the section name cut to its first
20 characters; a longer name is truncated to exactly that length, a shorter
one appears unchanged. -/
theorem truncation_spec :
    ∀ s : SectionItem, ∀ e : EventInfo, ∀ nm snm : String,
      s.event = some e → e.name = some nm → s.sectionName = some snm →
      ((section_row s).get? 1 = some (Cell.str (strTake 30 nm)) ∧
       (section_row s).get? 2 = some (Cell.str (strTake 20 snm)) ∧
       (30 < nm.length → (strTake 30 nm).length = 30) ∧
       (nm.length ≤ 30 → strTake 30 nm = nm) ∧
       (20 < snm.length → (strTake 20 snm).length = 20) ∧
       (snm.length ≤ 20 → strTake 20 snm = snm)) := by
  intro s e nm snm he hn hs2
  refine ⟨?_, ?_, ?_, strTake_of_le 30 nm, ?_, strTake_of_le 20 snm⟩
  · simp [section_row, he, hn]
  · simp [section_row, hs2]
  · intro h
    rw [strTake_length]
    omega
  · intro h
    rw [strTake_length]
    omega

/-- C7 (witness): the truncation facts at a section with a 35-character
event name and a 25-character section name. -/
theorem truncation_spec_witness :
    (section_row ⟨none, none, some "Reserve And Booster Weekend Swiss",
        some ⟨some "Greater Metropolitan Area Open Chess", none, none⟩⟩).get? 1 =
      some (Cell.str (strTake 30 "Greater Metropolitan Area Open Chess")) ∧
    (strTake 30 "Greater Metropolitan Area Open Chess").length = 30 := by
  have h := truncation_spec
    ⟨none, none, some "Reserve And Booster Weekend Swiss",
      some ⟨some "Greater Metropolitan Area Open Chess", none, none⟩⟩
    ⟨some "Greater Metropolitan Area Open Chess", none, none⟩
    "Greater Metropolitan Area Open Chess" "Reserve And Booster Weekend Swiss"
    rfl rfl rfl
  exact ⟨h.1, h.2.2.1 (by decide)⟩

/-- C8: the Type cell defaults to `"R"` when `ratingSystem` is absent; the
Before cell is `"N/A"` when the pre-rating is absent (no rating records, or
the first record lacks it); the After cell is `"Pending"` when the
post-rating is absent (the Change cell is then `"Pending"` too); and the two
missing-value defaults are distinct strings. -/
theorem row_defaults_spec :
    (∀ s : SectionItem, s.ratingSystem = none →
       (section_row s).get? 3 = some (Cell.str "R")) ∧
    (∀ s : SectionItem,
       (s.ratingRecords = none ∨ s.ratingRecords = some []) →
       (section_row s).get? 4 = some (Cell.str "N/A") ∧
       (section_row s).get? 5 = some (Cell.str "Pending") ∧
       (section_row s).get? 6 = some (Cell.str "Pending")) ∧
    (∀ s : SectionItem, ∀ r0 : RatingRecord, ∀ rs : List RatingRecord,
       s.ratingRecords = some (r0 :: rs) → r0.preRating = none →
       (section_row s).get? 4 = some (Cell.str "N/A")) ∧
    (∀ s : SectionItem, ∀ r0 : RatingRecord, ∀ rs : List RatingRecord,
       s.ratingRecords = some (r0 :: rs) → r0.postRating = none →
       (section_row s).get? 5 = some (Cell.str "Pending")) ∧
    ("N/A" : String) ≠ "Pending" := by
  refine ⟨?_, ?_, ?_, ?_, by decide⟩
  · intro s h
    simp [section_row, h]
  · intro s h
    rcases h with h | h <;>
      simp [section_row, h, calculate_rating_change]
  · intro s r0 rs hrr hpre
    simp [section_row, hrr, hpre]
  · intro s r0 rs hrr hpost
    simp [section_row, hrr, hpost]

/-- C8 (witness): the default cells at a section with no rating system and
no rating records. -/
theorem row_defaults_spec_witness :
    (section_row ⟨some [], none, none, none⟩).get? 3 = some (Cell.str "R") ∧
    (section_row ⟨some [], none, none, none⟩).get? 4 = some (Cell.str "N/A") ∧
    (section_row ⟨some [], none, none, none⟩).get? 5 = some (Cell.str "Pending") :=
  ⟨row_defaults_spec.1 ⟨some [], none, none, none⟩ rfl,
   (row_defaults_spec.2.1 ⟨some [], none, none, none⟩ (Or.inr rfl)).1,
   (row_defaults_spec.2.1 ⟨some [], none, none, none⟩ (Or.inr rfl)).2.1⟩

/-- C9: the displayed row and the summary's current rating computed for a
section depend only on the first rating record — replacing every later
record changes neither. -/
theorem first_record_only :
    ∀ s : SectionItem, ∀ r0 : RatingRecord, ∀ rs rs2 : List RatingRecord,
      section_row { s with ratingRecords := some (r0 :: rs) } =
        section_row { s with ratingRecords := some (r0 :: rs2) } ∧
      current_rating_of { s with ratingRecords := some (r0 :: rs) } =
        current_rating_of { s with ratingRecords := some (r0 :: rs2) } := by
  intro s r0 rs rs2
  exact ⟨rfl, rfl⟩

/-- C9 (witness): dropping a second rating record leaves the row unchanged. -/
theorem first_record_only_witness :
    section_row ⟨some [⟨some 1500, some 1520⟩, ⟨some 900, some 901⟩], none, none, none⟩ =
      section_row ⟨some [⟨some 1500, some 1520⟩], none, none, none⟩ :=
  (first_record_only ⟨none, none, none, none⟩ ⟨some 1500, some 1520⟩
    [⟨some 900, some 901⟩] []).1
